import Mathlib

/-!
Shallow embedding of `src/pytest_mcp/plugin.py`: the five pytest hooks
(`pytest_configure`, `pytest_collection_modifyitems`, `pytest_addoption`,
`pytest_report_header`, `pytest_exception_interact`) as pure functions over
explicit state.  Dynamically optional Python attributes are modelled as
`Option`-valued fields (`none` = attribute absent); Python truthiness is the
`truthy` function; `logger.error` calls are modelled as the list of emitted
messages.
-/

namespace PytestMcp

/-- A Python value as it occurs in this plugin: `None`, a string, a bool,
or a float (floats here are exact decimals, modelled as rationals). -/
inductive PyVal where
  | vnone
  | vstr (s : String)
  | vbool (b : Bool)
  | vfloat (q : Rat)
  deriving DecidableEq, Repr

/-- Python truthiness restricted to the values above. -/
def truthy : PyVal → Bool
  | .vnone => false
  | .vstr s => !(s == "")
  | .vbool b => b
  | .vfloat q => if q = 0 then false else true

/-- Python `str()` on the values above. -/
def pyStr : PyVal → String
  | .vnone => "None"
  | .vstr s => s
  | .vbool b => if b then "True" else "False"
  | .vfloat q => if q.den = 1 then toString q.num ++ ".0" else toString q

/-- The dynamically optional attributes of `config.option` that the plugin
touches.  `none` models a missing attribute (`hasattr` false). -/
structure ConfigOption where
  asyncio_mode : Option PyVal
  mcp_log_level : Option PyVal
  mcp_timeout : Option PyVal
  mcp_update_snapshots : Option PyVal
  deriving DecidableEq, Repr

/-- A pytest `Config`: the ini-value lines registered so far (name, line)
and the option namespace. -/
structure Config where
  inilines : List (String × String)
  option : ConfigOption
  deriving DecidableEq, Repr

/-- `config.addinivalue_line(name, line)`: appends one line. -/
def addinivalue_line (config : Config) (name line : String) : Config :=
  { config with inilines := config.inilines ++ [(name, line)] }

/-- `pytest_configure` from plugin.py: registers the three marker lines and
then sets `config.option.asyncio_mode = "auto"` when the attribute exists
and its value is falsy. -/
def pytest_configure (config : Config) : Config :=
  let c1 := addinivalue_line config "markers"
    "mcp: mark test as an MCP server test"
  let c2 := addinivalue_line c1 "markers"
    "mcp_integration: mark test as an MCP integration test"
  let c3 := addinivalue_line c2 "markers"
    "mcp_slow: mark test as a slow MCP test"
  match c3.option.asyncio_mode with
  | none => c3
  | some v =>
      if truthy v then c3
      else { c3 with option := { c3.option with asyncio_mode := some (PyVal.vstr "auto") } }

/-- A collected test item: its node id, its `fixturenames` attribute when
present (`none` = `hasattr(item, "fixturenames")` false), and the markers
added so far. -/
structure Item where
  nodeid : String
  fixturenames : Option (List String)
  markers : List String
  deriving DecidableEq, Repr

/-- `item.add_marker(m)`: appends the marker name. -/
def Item.add_marker (item : Item) (m : String) : Item :=
  { item with markers := item.markers ++ [m] }

/-- The per-item body of the loop in `pytest_collection_modifyitems`. -/
def modifyItem (item : Item) : Item :=
  match item.fixturenames with
  | none => item
  | some fixture_names =>
      let item1 :=
        if "mcp_client" ∈ fixture_names ∨ "mcp_test_server" ∈ fixture_names
        then item.add_marker "mcp" else item
      if "mcp_test_server" ∈ fixture_names
      then item1.add_marker "mcp_integration" else item1

/-- `pytest_collection_modifyitems` from plugin.py: auto-marks every
collected item; the config argument is not used by the body. -/
def pytest_collection_modifyitems (config : Config) (items : List Item) : List Item :=
  items.map modifyItem

/-- The markers that the hook added to an item (those past the item's
original markers). -/
def markersAdded (item : Item) : List String :=
  (modifyItem item).markers.drop item.markers.length

/-- The optional `type=` keyword of an option definition; only `float`
occurs in plugin.py. -/
inductive OptType where
  | float
  deriving DecidableEq, Repr

/-- One registered command-line option: name, action, optional type,
default value and help text, as passed to `group.addoption`. -/
structure OptDef where
  name : String
  action : String
  type : Option OptType
  default : PyVal
  help : String
  deriving DecidableEq, Repr

/-- A pytest `Parser`: its option groups (group name, options in order). -/
structure Parser where
  groups : List (String × List OptDef)
  deriving DecidableEq, Repr

/-- `parser.getgroup(g)` followed by `group.addoption(o)`: appends `o` to
the first group named `g`, creating the group when absent. -/
def addToGroups : List (String × List OptDef) → String → OptDef → List (String × List OptDef)
  | [], g, o => [(g, [o])]
  | (n, os) :: rest, g, o =>
      if n = g then (n, os ++ [o]) :: rest
      else (n, os) :: addToGroups rest g o

/-- Add one option to the named group of a parser. -/
def Parser.addoption (p : Parser) (g : String) (o : OptDef) : Parser :=
  ⟨addToGroups p.groups g o⟩

/-- The options of the first group with the given name ([] when absent). -/
def lookupGroup : List (String × List OptDef) → String → List OptDef
  | [], _ => []
  | (n, os) :: rest, g => if n = g then os else lookupGroup rest g

/-- The options registered in a parser's named group. -/
def Parser.groupOpts (p : Parser) (g : String) : List OptDef :=
  lookupGroup p.groups g

/-- The `--mcp-log-level` option as registered in plugin.py. -/
def mcpLogLevelOpt : OptDef :=
  { name := "--mcp-log-level", action := "store", type := none,
    default := PyVal.vstr "WARNING",
    help := "Set log level for MCP client (DEBUG, INFO, WARNING, ERROR)" }

/-- The `--mcp-timeout` option as registered in plugin.py. -/
def mcpTimeoutOpt : OptDef :=
  { name := "--mcp-timeout", action := "store", type := some OptType.float,
    default := PyVal.vfloat 30,
    help := "Default timeout for MCP operations in seconds" }

/-- The `--mcp-update-snapshots` option as registered in plugin.py. -/
def mcpUpdateSnapshotsOpt : OptDef :=
  { name := "--mcp-update-snapshots", action := "store_true", type := none,
    default := PyVal.vbool false,
    help := "Update snapshot files instead of comparing" }

/-- `pytest_addoption` from plugin.py: registers the three options in the
group named "mcp". -/
def pytest_addoption (parser : Parser) : Parser :=
  ((parser.addoption "mcp" mcpLogLevelOpt).addoption "mcp" mcpTimeoutOpt).addoption
    "mcp" mcpUpdateSnapshotsOpt

/-- `pytest_report_header` from plugin.py: builds the header lines from the
optionally present `mcp_log_level` and `mcp_timeout` attributes. -/
def pytest_report_header (config : Config) : List String :=
  let headers : List String := []
  let headers :=
    match config.option.mcp_log_level with
    | some v => headers ++ ["mcp: log-level=" ++ pyStr v]
    | none => headers
  let headers :=
    match config.option.mcp_timeout with
    | some v => headers ++ ["mcp: timeout=" ++ pyStr v ++ "s"]
    | none => headers
  headers

/-- `call.excinfo` when present: the exception type's `__name__` and the
`str()` of the exception value. -/
structure ExcInfo where
  typeName : String
  valueStr : String
  deriving DecidableEq, Repr

/-- `call`: the call information passed to `pytest_exception_interact`. -/
structure CallInfo where
  excinfo : Option ExcInfo
  deriving DecidableEq, Repr

/-- The test report argument (unused by the hook body). -/
structure TestReport where
  failed : Bool
  deriving DecidableEq, Repr

/-- `pytest_exception_interact` from plugin.py, with its `logger.error`
calls modelled as the returned list of emitted messages. -/
def pytest_exception_interact (node : Item) (call : CallInfo)
    (report : TestReport) : List String :=
  match call.excinfo with
  | none => []
  | some exc =>
      if exc.typeName = "ConnectionError" then
        ["MCP connection failed in " ++ node.nodeid ++ ": " ++ exc.valueStr ++
          "\nCheck that your mcp_server fixture returns valid server parameters."]
      else if exc.typeName = "TimeoutError" then
        ["MCP operation timed out in " ++ node.nodeid ++ ": " ++ exc.valueStr ++
          "\nConsider increasing timeout with --mcp-timeout option."]
      else []

/-- Dropping the length of the left part of an append leaves the right part. -/
theorem drop_len_append {α : Type} (l r : List α) : (l ++ r).drop l.length = r := by
  induction l with
  | nil => simp
  | cons a t ih => simpa using ih

/-- Characterisation of the markers added by the collection hook, as a
function of the item's fixture names. -/
theorem markersAdded_eq (item : Item) :
    markersAdded item =
      match item.fixturenames with
      | none => []
      | some fns =>
          (if "mcp_client" ∈ fns ∨ "mcp_test_server" ∈ fns then ["mcp"] else []) ++
          (if "mcp_test_server" ∈ fns then ["mcp_integration"] else []) := by
  unfold markersAdded modifyItem Item.add_marker
  cases h : item.fixturenames with
  | none => simp
  | some fns =>
      by_cases h1 : "mcp_client" ∈ fns <;> by_cases h2 : "mcp_test_server" ∈ fns <;>
        simp [h1, h2, List.append_assoc, drop_len_append]

/-- A sample empty configuration used by witnesses. -/
def cfgEmpty : Config := ⟨[], ⟨none, none, none, none⟩⟩

/-- Claim C1: for every collected item that has a `fixturenames` attribute,
`pytest_collection_modifyitems` adds the "mcp" marker to it if and only if
its fixture names contain "mcp_client" or "mcp_test_server"; items whose
fixture names contain neither receive no "mcp" marker from this hook. -/
theorem collection_adds_mcp_iff (config : Config) (items : List Item) (item : Item)
    (hmem : item ∈ items) (fns : List String)
    (hf : item.fixturenames = some fns) :
    modifyItem item ∈ pytest_collection_modifyitems config items ∧
    ("mcp" ∈ markersAdded item ↔ ("mcp_client" ∈ fns ∨ "mcp_test_server" ∈ fns)) := by
  refine ⟨List.mem_map_of_mem _ hmem, ?_⟩
  rw [markersAdded_eq, hf]
  by_cases h1 : "mcp_client" ∈ fns <;> by_cases h2 : "mcp_test_server" ∈ fns <;>
    simp [h1, h2]

/-- Sample item whose fixture names contain "mcp_client". -/
def itemClient : Item := ⟨"test_client", some ["mcp_client"], []⟩

/-- Witness for C1 at a concrete item using the `mcp_client` fixture. -/
theorem collection_adds_mcp_iff_witness :
    modifyItem itemClient ∈ pytest_collection_modifyitems cfgEmpty [itemClient] ∧
    ("mcp" ∈ markersAdded itemClient ↔
      ("mcp_client" ∈ ["mcp_client"] ∨ "mcp_test_server" ∈ ["mcp_client"])) :=
  collection_adds_mcp_iff cfgEmpty [itemClient] itemClient
    (List.mem_singleton.mpr rfl) ["mcp_client"] rfl

/-- Claim C2: for every collected item that has a `fixturenames` attribute,
`pytest_collection_modifyitems` adds the "mcp_integration" marker to it if
and only if its fixture names contain "mcp_test_server". -/
theorem collection_adds_integration_iff (config : Config) (items : List Item)
    (item : Item) (hmem : item ∈ items) (fns : List String)
    (hf : item.fixturenames = some fns) :
    modifyItem item ∈ pytest_collection_modifyitems config items ∧
    ("mcp_integration" ∈ markersAdded item ↔ "mcp_test_server" ∈ fns) := by
  refine ⟨List.mem_map_of_mem _ hmem, ?_⟩
  rw [markersAdded_eq, hf]
  by_cases h1 : "mcp_client" ∈ fns <;> by_cases h2 : "mcp_test_server" ∈ fns <;>
    simp [h1, h2]

/-- Sample item whose fixture names contain "mcp_test_server". -/
def itemServer : Item := ⟨"test_server", some ["mcp_test_server"], []⟩

/-- Witness for C2 at a concrete item using the `mcp_test_server` fixture. -/
theorem collection_adds_integration_iff_witness :
    modifyItem itemServer ∈ pytest_collection_modifyitems cfgEmpty [itemServer] ∧
    ("mcp_integration" ∈ markersAdded itemServer ↔
      "mcp_test_server" ∈ ["mcp_test_server"]) :=
  collection_adds_integration_iff cfgEmpty [itemServer] itemServer
    (List.mem_singleton.mpr rfl) ["mcp_test_server"] rfl

/-- Claim C9: every item to which the collection hook added the
"mcp_integration" marker was also given the "mcp" marker. -/
theorem integration_implies_mcp (item : Item)
    (h : "mcp_integration" ∈ markersAdded item) :
    "mcp" ∈ markersAdded item := by
  rw [markersAdded_eq] at h ⊢
  cases hf : item.fixturenames with
  | none => simp_all
  | some fns =>
      by_cases h1 : "mcp_client" ∈ fns <;> by_cases h2 : "mcp_test_server" ∈ fns <;>
        simp_all


/-- Witness for C9 at a concrete item that received "mcp_integration". -/
theorem integration_implies_mcp_witness :
    "mcp" ∈ markersAdded (Item.mk "test_w9" (some ["mcp_test_server"]) []) :=
  integration_implies_mcp (Item.mk "test_w9" (some ["mcp_test_server"]) []) (by decide)

/-- Claim C10: the markers added by `pytest_collection_modifyitems` are a
deterministic function of each item's fixture names alone; the config
argument never influences the outcome. -/
theorem collection_noninterference :
    (∀ c₁ c₂ : Config, ∀ items : List Item,
        pytest_collection_modifyitems c₁ items = pytest_collection_modifyitems c₂ items) ∧
    (∀ i₁ i₂ : Item, i₁.fixturenames = i₂.fixturenames →
        markersAdded i₁ = markersAdded i₂) := by
  constructor
  · intro c₁ c₂ items
    rfl
  · intro i₁ i₂ h
    rw [markersAdded_eq, markersAdded_eq, h]

/-- Witness for C10: two distinct configs give the same result, and two
items sharing fixture names get the same added markers. -/
theorem collection_noninterference_witness :
    pytest_collection_modifyitems cfgEmpty [itemClient] =
      pytest_collection_modifyitems
        (Config.mk [("markers", "x")] ⟨some (PyVal.vstr "strict"), none, none, none⟩)
        [itemClient] ∧
    markersAdded (Item.mk "test_a" (some ["mcp_client"]) []) =
      markersAdded (Item.mk "test_b" (some ["mcp_client"]) ["other"]) :=
  ⟨collection_noninterference.1 cfgEmpty
      (Config.mk [("markers", "x")] ⟨some (PyVal.vstr "strict"), none, none, none⟩)
      [itemClient],
    collection_noninterference.2 (Item.mk "test_a" (some ["mcp_client"]) [])
      (Item.mk "test_b" (some ["mcp_client"]) ["other"]) rfl⟩

/-- Adding an option to a named group appends it to that group's options. -/
theorem lookupGroup_addToGroups (l : List (String × List OptDef)) (g : String)
    (o : OptDef) : lookupGroup (addToGroups l g o) g = lookupGroup l g ++ [o] := by
  induction l with
  | nil => simp [addToGroups, lookupGroup]
  | cons p rest ih =>
      obtain ⟨n, os⟩ := p
      by_cases hn : n = g <;> simp [addToGroups, lookupGroup, hn, ih]

/-- Claim C3: `pytest_addoption` registers exactly three options in the
"mcp" group: `--mcp-log-level` (action "store", default "WARNING"),
`--mcp-timeout` (parsed as float, default 30.0) and the boolean flag
`--mcp-update-snapshots` (action "store_true", default False), in order. -/
theorem addoption_registers_three (parser : Parser) :
    (pytest_addoption parser).groupOpts "mcp" =
      parser.groupOpts "mcp" ++
        [{ name := "--mcp-log-level", action := "store", type := none,
           default := PyVal.vstr "WARNING",
           help := "Set log level for MCP client (DEBUG, INFO, WARNING, ERROR)" },
         { name := "--mcp-timeout", action := "store", type := some OptType.float,
           default := PyVal.vfloat 30,
           help := "Default timeout for MCP operations in seconds" },
         { name := "--mcp-update-snapshots", action := "store_true", type := none,
           default := PyVal.vbool false,
           help := "Update snapshot files instead of comparing" }] := by
  show lookupGroup (addToGroups (addToGroups (addToGroups parser.groups
    "mcp" mcpLogLevelOpt) "mcp" mcpTimeoutOpt) "mcp" mcpUpdateSnapshotsOpt) "mcp" = _
  rw [lookupGroup_addToGroups, lookupGroup_addToGroups, lookupGroup_addToGroups]
  simp [mcpLogLevelOpt, mcpTimeoutOpt, mcpUpdateSnapshotsOpt, Parser.groupOpts]

/-- Claim C4: `pytest_configure` registers exactly three marker definition
lines, for the markers "mcp", "mcp_integration" and "mcp_slow", in order. -/
theorem configure_registers_three_markers (config : Config) :
    (pytest_configure config).inilines =
      config.inilines ++
        [("markers", "mcp: mark test as an MCP server test"),
         ("markers", "mcp_integration: mark test as an MCP integration test"),
         ("markers", "mcp_slow: mark test as a slow MCP test")] := by
  unfold pytest_configure addinivalue_line
  cases h : config.option.asyncio_mode with
  | none => simp [h]
  | some v => by_cases hv : truthy v <;> simp [h, hv]

/-- Claim C5: `pytest_exception_interact` does nothing when `call.excinfo`
is None, and otherwise emits exactly one enriched error log message if and
only if the exception type's name is "ConnectionError" or "TimeoutError";
for every other exception type it emits nothing. -/
theorem exception_interact_spec (node : Item) (call : CallInfo) (report : TestReport) :
    (call.excinfo = none → pytest_exception_interact node call report = []) ∧
    (∀ exc, call.excinfo = some exc →
      (pytest_exception_interact node call report).length =
        (if exc.typeName = "ConnectionError" ∨ exc.typeName = "TimeoutError"
         then 1 else 0)) ∧
    (∀ exc, call.excinfo = some exc → exc.typeName ≠ "ConnectionError" →
      exc.typeName ≠ "TimeoutError" →
      pytest_exception_interact node call report = []) := by
  unfold pytest_exception_interact
  refine ⟨?_, ?_, ?_⟩
  · intro h
    rw [h]
  · intro exc h
    rw [h]
    by_cases h1 : exc.typeName = "ConnectionError" <;>
      by_cases h2 : exc.typeName = "TimeoutError" <;> simp [h1, h2]
  · intro exc h h1 h2
    rw [h]
    simp [h1, h2]

/-- A sample test report used by witnesses. -/
def reportW : TestReport := ⟨true⟩

/-- Witness for C5: the hook emits one message for a ConnectionError. -/
theorem exception_interact_spec_witness :
    (pytest_exception_interact itemClient
        (CallInfo.mk (some (ExcInfo.mk "ConnectionError" "boom"))) reportW).length =
      (if ("ConnectionError" : String) = "ConnectionError" ∨
          ("ConnectionError" : String) = "TimeoutError" then 1 else 0) :=
  (exception_interact_spec itemClient
      (CallInfo.mk (some (ExcInfo.mk "ConnectionError" "boom"))) reportW).2.1
    (ExcInfo.mk "ConnectionError" "boom") rfl

/-- Claim C6: `pytest_report_header` returns the log-level line exactly when
`mcp_log_level` is present, followed by the timeout line exactly when
`mcp_timeout` is present, and nothing else. -/
theorem report_header_spec (config : Config) :
    (config.option.mcp_log_level = none → config.option.mcp_timeout = none →
        pytest_report_header config = []) ∧
    (∀ v, config.option.mcp_log_level = some v → config.option.mcp_timeout = none →
        pytest_report_header config = ["mcp: log-level=" ++ pyStr v]) ∧
    (∀ w, config.option.mcp_log_level = none → config.option.mcp_timeout = some w →
        pytest_report_header config = ["mcp: timeout=" ++ pyStr w ++ "s"]) ∧
    (∀ v w, config.option.mcp_log_level = some v → config.option.mcp_timeout = some w →
        pytest_report_header config =
          ["mcp: log-level=" ++ pyStr v, "mcp: timeout=" ++ pyStr w ++ "s"]) := by
  unfold pytest_report_header
  refine ⟨?_, ?_, ?_, ?_⟩ <;> intros <;> simp_all

/-- A sample configuration with both report-header attributes present. -/
def cfgBoth : Config :=
  ⟨[], ⟨none, some (PyVal.vstr "DEBUG"), some (PyVal.vfloat 30), none⟩⟩

/-- Witness for C6 at a configuration carrying both attributes. -/
theorem report_header_spec_witness :
    pytest_report_header cfgBoth =
      ["mcp: log-level=" ++ pyStr (PyVal.vstr "DEBUG"),
       "mcp: timeout=" ++ pyStr (PyVal.vfloat 30) ++ "s"] :=
  (report_header_spec cfgBoth).2.2.2 (PyVal.vstr "DEBUG") (PyVal.vfloat 30) rfl rfl

/-- Claim C7: every hook is total over objects lacking the dynamically
optional attributes: with `asyncio_mode`, `mcp_log_level`, `mcp_timeout`
and `fixturenames` all absent, each hook is defined and leaves the
dynamic state untouched instead of failing. -/
theorem hooks_total_without_optional_attrs (config : Config) (item : Item)
    (hA : config.option.asyncio_mode = none)
    (hL : config.option.mcp_log_level = none)
    (hT : config.option.mcp_timeout = none)
    (hF : item.fixturenames = none) :
    (pytest_configure config).option = config.option ∧
    modifyItem item = item ∧
    pytest_collection_modifyitems config [item] = [item] ∧
    pytest_report_header config = [] := by
  have hm : modifyItem item = item := by
    unfold modifyItem
    rw [hF]
  refine ⟨?_, hm, ?_, ?_⟩
  · unfold pytest_configure addinivalue_line
    simp [hA]
  · unfold pytest_collection_modifyitems
    rw [List.map_singleton, hm]
  · unfold pytest_report_header
    simp [hL, hT]

/-- A sample item lacking the `fixturenames` attribute. -/
def itemNoFixtures : Item := ⟨"test_plain", none, []⟩

/-- Witness for C7 at a config and item lacking all optional attributes. -/
theorem hooks_total_without_optional_attrs_witness :
    (pytest_configure cfgEmpty).option = cfgEmpty.option ∧
    modifyItem itemNoFixtures = itemNoFixtures ∧
    pytest_collection_modifyitems cfgEmpty [itemNoFixtures] = [itemNoFixtures] ∧
    pytest_report_header cfgEmpty = [] :=
  hooks_total_without_optional_attrs cfgEmpty itemNoFixtures rfl rfl rfl rfl

/-- Claim C8: `pytest_configure` sets `asyncio_mode` to "auto" exactly when
the attribute exists with a falsy value; a truthy value or an absent
attribute is left unchanged, and no other option field is modified. -/
theorem configure_asyncio_frame (config : Config) :
    (config.option.asyncio_mode = none →
        (pytest_configure config).option = config.option) ∧
    (∀ v, config.option.asyncio_mode = some v → truthy v = true →
        (pytest_configure config).option = config.option) ∧
    (∀ v, config.option.asyncio_mode = some v → truthy v = false →
        (pytest_configure config).option =
          { config.option with asyncio_mode := some (PyVal.vstr "auto") }) := by
  unfold pytest_configure addinivalue_line
  refine ⟨?_, ?_, ?_⟩
  · intro h
    simp [h]
  · intro v h hv
    simp [h, hv]
  · intro v h hv
    simp [h, hv]

/-- A sample configuration whose `asyncio_mode` is present but falsy. -/
def cfgFalsyAsyncio : Config := ⟨[], ⟨some PyVal.vnone, none, none, none⟩⟩

/-- Witness for C8: a falsy `asyncio_mode` is replaced by "auto". -/
theorem configure_asyncio_frame_witness :
    (pytest_configure cfgFalsyAsyncio).option =
      { cfgFalsyAsyncio.option with asyncio_mode := some (PyVal.vstr "auto") } :=
  (configure_asyncio_frame cfgFalsyAsyncio).2.2 PyVal.vnone rfl rfl

end PytestMcp
